import Mathlib

/-!
# Verification of the Storm Dashboard global-state mediator

Shallow embedding of `src/js/dashboard-state.js`: the `DashboardState`
class, its shared state bag, view registry, listener registry, and the
operations `updateYear`, `registerView`, `updateAllViews`,
`addEventListener`, `triggerListeners`, `setValue`, `prepareSpec` and
`loadVisualization`.

Modelling conventions:
* JS `Map` objects and the `state` object are modelled as association
  lists with JS semantics: setting an existing key updates its value in
  place (keeping its position), setting a fresh key appends; iteration
  follows list order (= insertion order, as for JS `Map.forEach`).
* All values stored in the state bag are integers (the program only ever
  stores years), so state values are `Int`.
* A Vega view handle is opaque; the mediator only observes whether
  `view.signal` is a function (`hasSignal`), whether `view.run` is a
  function (`runIsFun` — calling a missing `run` throws a `TypeError`),
  and whether those calls throw when invoked (`signalThrows`,
  `runThrows`).  A candidate handle that may be `null`/`undefined` is an
  `Option ViewHandle`.
* Listener callbacks are opaque: identified by an id (JS function
  identity) plus whether calling them throws.
* Side effects (DOM text update, `view.signal`/`view.run` calls,
  listener invocations, `console.log`/`console.error` diagnostics) are
  recorded as an `Event` trace.  An operation that can let a JS
  exception escape to its caller additionally returns `Option JsError`;
  operations in which every exception of a callee is absorbed by a
  `try`/`catch` (as in `updateAllViews` and `triggerListeners`) return
  no error component, reflecting that they cannot throw.
* JS comparisons against a missing (`undefined`) state key yield
  `false`; the range check of `updateYear` is modelled accordingly.
-/

/-- Association-list lookup, mirroring JS `Map.get` / property read:
`none` models `undefined`. -/
def mapGet {α : Type} : List (String × α) → String → Option α
  | [], _ => none
  | p :: ps, k => if p.1 == k then some p.2 else mapGet ps k

/-- Association-list update, mirroring JS `Map.set` / property write:
an existing key keeps its position and gets the new value, a fresh key
is appended.  (Keys are unique in every reachable registry/state.) -/
def mapSet {α : Type} : List (String × α) → String → α → List (String × α)
  | [], k, v => [(k, v)]
  | p :: ps, k, v => if p.1 == k then (k, v) :: ps else p :: mapSet ps k v

/-- Whether the map has the key, mirroring JS `Map.has`. -/
def mapHas {α : Type} (m : List (String × α)) (k : String) : Bool :=
  (mapGet m k).isSome

/-- An opaque Vega view handle, as observed by the mediator. -/
structure ViewHandle where
  /-- `typeof view.signal === 'function'` -/
  hasSignal : Bool
  /-- calling `view.signal(...)` throws -/
  signalThrows : Bool
  /-- `view.run` is a function (calling a missing one throws `TypeError`) -/
  runIsFun : Bool
  /-- calling `view.run()` throws -/
  runThrows : Bool
deriving DecidableEq, Repr

/-- An opaque listener callback: `id` models JS function identity. -/
structure Listener where
  id : Nat
  throws : Bool
deriving DecidableEq, Repr

/-- A JS exception escaping a mediator operation. -/
inductive JsError where
  | signalRaised
  | runRaised
  /-- `view.run is not a function` -/
  | typeError
  /-- failure while fetching / JSON-decoding the spec -/
  | fetchFailed
  /-- failure while instantiating the chart (`vegaEmbed`) -/
  | embedFailed
deriving DecidableEq, Repr

/-- Payload handed to custom listeners. -/
inductive EventData where
  /-- `{ oldYear, newYear }`, triggered by `updateYear` -/
  | yearChange (oldYear : Option Int) (newYear : Int)
  /-- `{ key, oldValue, newValue }`, triggered by `setValue` -/
  | stateChange (key : String) (oldValue : Option Int) (newValue : Int)
deriving DecidableEq, Repr

/-- Observable side effects of the mediator, in order of occurrence. -/
inductive Event where
  /-- `yearDisplay.textContent = newYear` -/
  | domUpdate (year : Int)
  /-- `view.signal('globalYear', value)` received by the named view -/
  | signalCall (viewName sigName : String) (value : Option Int)
  /-- `view.run()` received by the named view -/
  | runCall (viewName : String)
  /-- a custom listener invoked with the payload -/
  | listenerCall (lid : Nat) (data : EventData)
  /-- `console.log` for a successful year update -/
  | logYearUpdated (oldYear : Option Int) (newYear : Int)
  /-- `console.log` for a successful registration -/
  | logViewRegistered (name : String)
  /-- `console.error(\x7bInvalid view provided for ...\x7d)` -/
  | errInvalidView (name : String)
  /-- `console.error(\x7bError updating view ...\x7d)` in `updateAllViews` -/
  | errViewUpdate (name : String)
  /-- `console.error(\x7bError in event listener for ...\x7d)` -/
  | errListener (event : String)
  /-- `console.log` for a successfully loaded visualization -/
  | logVizLoaded (name : String)
  /-- `console.error(\x7bError loading visualization ...\x7d)` -/
  | errVizLoad (name : String)
deriving DecidableEq, Repr

/-- The mediator: shared state bag, view registry, listener registry.
`yearDisplayPresent` records whether the optional DOM display element
exists on the page (environment, fixed per page). -/
structure DashboardState where
  state : List (String × Int)
  views : List (String × ViewHandle)
  listeners : List (String × List Listener)
  yearDisplayPresent : Bool
deriving DecidableEq, Repr

/-- The constructor: `currentYear: 2010, startYear: 2005, endYear: 2025`,
empty registries. -/
def initDashboard (domPresent : Bool) : DashboardState :=
  { state := [("currentYear", 2010), ("startYear", 2005), ("endYear", 2025)]
    views := []
    listeners := []
    yearDisplayPresent := domPresent }

/-- `this.state.currentYear`. -/
def currentYearOf (d : DashboardState) : Option Int :=
  mapGet d.state "currentYear"

/-- Body of the `updateAllViews` loop for one registry entry: if the view
looks valid (`view && typeof view.signal === 'function'`), push the
signal and re-run inside a `try`; an exception at either call is caught
and reported as `errViewUpdate` for this view (a missing `run` throws a
`TypeError`, likewise caught). -/
def viewFanout (cy : Option Int) (nv : String × ViewHandle) : List Event :=
  if nv.2.hasSignal then
    let sigEv := Event.signalCall nv.1 "globalYear" cy
    if nv.2.signalThrows then [sigEv, .errViewUpdate nv.1]
    else if !nv.2.runIsFun then [sigEv, .errViewUpdate nv.1]
    else if nv.2.runThrows then [sigEv, .runCall nv.1, .errViewUpdate nv.1]
    else [sigEv, .runCall nv.1]
  else []

/-- `updateAllViews()`: for each registered view (insertion order), run
the guarded fan-out body.  Cannot throw, hence no error component. -/
def updateAllViews (d : DashboardState) : List Event :=
  d.views.flatMap (viewFanout (currentYearOf d))

/-- Body of the `triggerListeners` loop for one callback: invoke it with
the payload; an exception is caught and reported for this callback. -/
def listenerInvoke (event : String) (data : EventData) (cb : Listener) :
    List Event :=
  if cb.throws then [.listenerCall cb.id data, .errListener event]
  else [.listenerCall cb.id data]

/-- `triggerListeners(event, data)`: invoke every callback registered for
the event in order; exceptions are caught per callback.  Cannot throw. -/
def triggerListeners (d : DashboardState) (event : String) (data : EventData) :
    List Event :=
  match mapGet d.listeners event with
  | none => []
  | some cbs => cbs.flatMap (listenerInvoke event data)

/-- `addEventListener(event, callback)`: create the sequence if absent,
then append. -/
def addEventListener (d : DashboardState) (event : String) (cb : Listener) :
    DashboardState :=
  match mapGet d.listeners event with
  | none => { d with listeners := mapSet d.listeners event [cb] }
  | some cbs => { d with listeners := mapSet d.listeners event (cbs ++ [cb]) }

/-- `updateYear(newYear)`: validate the range against `startYear` /
`endYear` (a comparison against a missing key is `false` in JS); on
success store the new year, update the display if present, fan out to
views, notify `'yearChange'` listeners, log.  Out of range: nothing.
All callee exceptions are absorbed, so `updateYear` cannot throw. -/
def updateYear (d : DashboardState) (newYear : Int) :
    DashboardState × List Event :=
  let inRange := match mapGet d.state "startYear", mapGet d.state "endYear" with
    | some s, some e => newYear ≥ s && newYear ≤ e
    | _, _ => false
  if inRange then
    let oldYear := currentYearOf d
    let d' := { d with state := mapSet d.state "currentYear" newYear }
    let domEvs := if d.yearDisplayPresent then [Event.domUpdate newYear] else []
    (d', domEvs ++ updateAllViews d'
         ++ triggerListeners d' "yearChange" (.yearChange oldYear newYear)
         ++ [.logYearUpdated oldYear newYear])
  else (d, [])

/-- `registerView(name, view)`: if the candidate is non-null and
`view.signal` is a function, it is stored in the registry FIRST, then the
initial `signal('globalYear', currentYear)` and `run()` push happens
outside any `try`, so an exception there escapes to the caller (the
`run` capability is never checked).  Otherwise the registry is untouched
and an error is reported. -/
def registerView (d : DashboardState) (name : String) (view : Option ViewHandle) :
    DashboardState × List Event × Option JsError :=
  match view with
  | some v =>
    if v.hasSignal then
      let d' := { d with views := mapSet d.views name v }
      let sigEv := Event.signalCall name "globalYear" (currentYearOf d')
      if v.signalThrows then (d', [sigEv], some .signalRaised)
      else if !v.runIsFun then (d', [sigEv], some .typeError)
      else if v.runThrows then (d', [sigEv, .runCall name], some .runRaised)
      else (d', [sigEv, .runCall name, .logViewRegistered name], none)
    else (d, [.errInvalidView name], none)
  | none => (d, [.errInvalidView name], none)

/-- `setValue(key, value)`: unconditional write (no range validation);
fan out to views only for `'currentYear'`; always notify
`'stateChange'` listeners.  No DOM update.  Cannot throw. -/
def setValue (d : DashboardState) (key : String) (value : Int) :
    DashboardState × List Event :=
  let oldValue := mapGet d.state key
  let d' := { d with state := mapSet d.state key value }
  let viewEvs := if key == "currentYear" then updateAllViews d' else []
  (d', viewEvs ++ triggerListeners d' "stateChange" (.stateChange key oldValue value))

/-- A `{name, value}` entry of a Vega-Lite `params` array. -/
structure VegaParam where
  name : String
  value : Option Int
deriving DecidableEq, Repr

/-- A chart configuration: an optional `params` array plus the rest of
the document, opaque to the mediator (`rest`). -/
structure VegaSpec where
  params : Option (List VegaParam)
  rest : Nat
deriving DecidableEq, Repr

/-- The in-place mutation performed on the entry found by
`params.find(p => p.name === 'globalYear')`: the FIRST such entry gets
the new value, everything else is untouched. -/
def setFirstGlobalYear (cy : Option Int) : List VegaParam → List VegaParam
  | [] => []
  | p :: ps =>
      if p.name == "globalYear" then { p with value := cy } :: ps
      else p :: setFirstGlobalYear cy ps

/-- `prepareSpec(spec)`: deep-copy via JSON round-trip (the identity on
JSON-serializable documents — our `VegaSpec` values are already plain
data, and the function returns a fresh value, so the input is never
mutated), ensure `params` exists, then update the first `globalYear`
entry in place or unshift a new one at the front. -/
def prepareSpec (d : DashboardState) (spec : VegaSpec) : VegaSpec :=
  let ps := spec.params.getD []
  if ps.any (fun p => p.name == "globalYear") then
    { spec with params := some (setFirstGlobalYear (currentYearOf d) ps) }
  else
    { spec with params := some (⟨"globalYear", currentYearOf d⟩ :: ps) }

/-- `loadVisualization(containerId, specPath, viewName)`: the fetch +
JSON-decode step and the `vegaEmbed` step are environment capabilities,
passed as parameters.  The whole body sits in one `try`/`catch` that
reports the failure naming `viewName` and re-throws; that `catch` also
covers an exception escaping `registerView`. -/
def loadVisualization (d : DashboardState) (fetchSpec : Except JsError VegaSpec)
    (embed : VegaSpec → Except JsError (Option ViewHandle)) (viewName : String) :
    DashboardState × List Event × Option JsError :=
  match fetchSpec with
  | .error e => (d, [.errVizLoad viewName], some e)
  | .ok spec =>
    match embed (prepareSpec d spec) with
    | .error e => (d, [.errVizLoad viewName], some e)
    | .ok view =>
      match registerView d viewName view with
      | (d', evs, some e) => (d', evs ++ [.errVizLoad viewName], some e)
      | (d', evs, none) => (d', evs ++ [.logVizLoaded viewName], none)

/-- The documented state invariant `startYear <= currentYear <= endYear`
(false when any of the three keys is missing). -/
def invariantHolds (d : DashboardState) : Bool :=
  match mapGet d.state "currentYear", mapGet d.state "startYear",
        mapGet d.state "endYear" with
  | some c, some s, some e => s ≤ c && c ≤ e
  | _, _, _ => false

/-- Observation: is this event an invocation of the callback with the
given identity? -/
def isCallTo (i : Nat) : Event → Bool
  | .listenerCall lid _ => lid == i
  | _ => false

/-- Whether some already-registered callback has the given identity. -/
def idUsed (d : DashboardState) (i : Nat) : Bool :=
  d.listeners.any (fun p => p.2.any (fun l => l.id == i))

/-- A dashboard with two registered views — `"a"`, whose `run` raises,
and `"b"`, healthy — used to exhibit per-view fan-out isolation. -/
def mixedViewsDashboard : DashboardState :=
  { state := [("currentYear", 2010), ("startYear", 2005), ("endYear", 2025)]
    views := [("a", ⟨true, false, true, true⟩), ("b", ⟨true, false, true, false⟩)]
    listeners := []
    yearDisplayPresent := true }

/-! ## Basic facts about the association-list model -/

theorem mapGet_mapSet_self {α : Type} (m : List (String × α)) (k : String) (v : α) :
    mapGet (mapSet m k v) k = some v := by
  induction m with
  | nil => simp [mapGet, mapSet]
  | cons p ps ih =>
    by_cases h : p.1 = k
    · simp [mapGet, mapSet, h]
    · simp [mapGet, mapSet, h, ih]

theorem mapGet_mapSet_ne {α : Type} (m : List (String × α)) (k k' : String) (v : α)
    (hne : k' ≠ k) : mapGet (mapSet m k v) k' = mapGet m k' := by
  induction m with
  | nil => simp [mapGet, mapSet, Ne.symm hne]
  | cons p ps ih =>
    by_cases h : p.1 = k
    · simp [mapGet, mapSet, h, Ne.symm hne]
    · simp [mapGet, mapSet, h, ih]

theorem mapGet_mem {α : Type} (m : List (String × α)) (k : String) (v : α)
    (h : mapGet m k = some v) : (k, v) ∈ m := by
  induction m with
  | nil => simp [mapGet] at h
  | cons p ps ih =>
    obtain ⟨a, b⟩ := p
    by_cases hk : a = k
    · subst hk
      simp [mapGet] at h
      subst h
      exact List.mem_cons_self _ _
    · simp [mapGet, hk] at h
      exact List.mem_cons_of_mem _ (ih h)

/-! ## Shape of the per-view fan-out -/

theorem viewFanout_shape (cy : Option Int) (nv : String × ViewHandle) (ev : Event)
    (h : ev ∈ viewFanout cy nv) :
    ev = .signalCall nv.1 "globalYear" cy ∨ ev = .runCall nv.1 ∨
      ev = .errViewUpdate nv.1 := by
  obtain ⟨name, hs, st, ri, rt⟩ := nv
  cases hs <;> cases st <;> cases ri <;> cases rt <;> simp [viewFanout] at h <;> tauto

theorem viewFanout_healthy (cy : Option Int) (name : String) (v : ViewHandle)
    (h1 : v.hasSignal = true) (h2 : v.signalThrows = false)
    (h3 : v.runIsFun = true) (h4 : v.runThrows = false) :
    viewFanout cy (name, v) =
      [.signalCall name "globalYear" cy, .runCall name] := by
  obtain ⟨hs, st, ri, rt⟩ := v
  simp_all [viewFanout]

theorem viewFanout_err (cy : Option Int) (name : String) (v : ViewHandle) (n : String)
    (h : Event.errViewUpdate n ∈ viewFanout cy (name, v)) :
    n = name ∧ v.hasSignal = true ∧
      (v.signalThrows = true ∨ v.runIsFun = false ∨ v.runThrows = true) := by
  obtain ⟨hs, st, ri, rt⟩ := v
  cases hs <;> cases st <;> cases ri <;> cases rt <;> simp_all [viewFanout]

theorem viewFanout_not_listenerCall (cy : Option Int) (nv : String × ViewHandle)
    (i : Nat) (data : EventData) : Event.listenerCall i data ∉ viewFanout cy nv := by
  intro h
  rcases viewFanout_shape cy nv _ h with h' | h' | h' <;> exact Event.noConfusion h'

theorem viewFanout_not_domUpdate (cy : Option Int) (nv : String × ViewHandle)
    (y : Int) : Event.domUpdate y ∉ viewFanout cy nv := by
  intro h
  rcases viewFanout_shape cy nv _ h with h' | h' | h' <;> exact Event.noConfusion h'

theorem updateAllViews_not_listenerCall (d : DashboardState) (i : Nat)
    (data : EventData) : Event.listenerCall i data ∉ updateAllViews d := by
  intro h
  rw [updateAllViews, List.mem_flatMap] at h
  obtain ⟨nv, -, hmem⟩ := h
  exact viewFanout_not_listenerCall _ nv i data hmem

theorem updateAllViews_not_domUpdate (d : DashboardState) (y : Int) :
    Event.domUpdate y ∉ updateAllViews d := by
  intro h
  rw [updateAllViews, List.mem_flatMap] at h
  obtain ⟨nv, -, hmem⟩ := h
  exact viewFanout_not_domUpdate _ nv y hmem

theorem listenerInvoke_not_domUpdate (event : String) (data : EventData)
    (cb : Listener) (y : Int) : Event.domUpdate y ∉ listenerInvoke event data cb := by
  cases cb with | mk i t => cases t <;> simp [listenerInvoke]

theorem triggerListeners_not_domUpdate (d : DashboardState) (event : String)
    (data : EventData) (y : Int) : Event.domUpdate y ∉ triggerListeners d event data := by
  intro h
  rw [triggerListeners] at h
  rcases hm : mapGet d.listeners event with _ | cbs <;> rw [hm] at h
  · simp at h
  · rw [List.mem_flatMap] at h
    obtain ⟨cb, -, hmem⟩ := h
    exact listenerInvoke_not_domUpdate event data cb y hmem

/-! ## Reduction lemmas for `updateYear` -/

theorem updateYear_inRange (d : DashboardState) (n s e : Int)
    (hs : mapGet d.state "startYear" = some s)
    (he : mapGet d.state "endYear" = some e) (h : s ≤ n ∧ n ≤ e) :
    updateYear d n =
      ({ d with state := mapSet d.state "currentYear" n },
       (if d.yearDisplayPresent then [Event.domUpdate n] else [])
         ++ updateAllViews { d with state := mapSet d.state "currentYear" n }
         ++ triggerListeners { d with state := mapSet d.state "currentYear" n }
             "yearChange" (.yearChange (currentYearOf d) n)
         ++ [.logYearUpdated (currentYearOf d) n]) := by
  rw [updateYear, hs, he]
  simp [h.1, h.2]

theorem updateYear_outRange (d : DashboardState) (n s e : Int)
    (hs : mapGet d.state "startYear" = some s)
    (he : mapGet d.state "endYear" = some e) (h : ¬(s ≤ n ∧ n ≤ e)) :
    updateYear d n = (d, []) := by
  rw [updateYear, hs, he]
  rcases Decidable.not_and_iff_or_not.mp h with h' | h' <;> simp [h']

/-! ## C1: range policy of `updateYear` -/

/-- **C1**: for every `newValue` with `startYear ≤ newValue ≤ endYear`,
`updateYear newValue` sets `currentYear` to `newValue` (leaving every
other state key and both registries untouched) and its trace is exactly
DOM update (when the display is present), then the view fan-out
(`updateAllViews`), then the `'yearChange'` listener notification, then
the log; for every out-of-range `newValue` the entire state is unchanged
and the trace is empty — no propagation, no listener call, no error
event — and by construction `updateYear` cannot throw (every callee
exception is absorbed). -/
theorem updateYear_range_policy (d : DashboardState) (n s e : Int)
    (hs : mapGet d.state "startYear" = some s)
    (he : mapGet d.state "endYear" = some e) :
    (s ≤ n ∧ n ≤ e →
       currentYearOf (updateYear d n).1 = some n ∧
       (∀ k, k ≠ "currentYear" →
          mapGet (updateYear d n).1.state k = mapGet d.state k) ∧
       (updateYear d n).1.views = d.views ∧
       (updateYear d n).1.listeners = d.listeners ∧
       (updateYear d n).2 =
         (if d.yearDisplayPresent then [Event.domUpdate n] else [])
           ++ updateAllViews (updateYear d n).1
           ++ triggerListeners (updateYear d n).1 "yearChange"
               (.yearChange (currentYearOf d) n)
           ++ [.logYearUpdated (currentYearOf d) n]) ∧
    (¬(s ≤ n ∧ n ≤ e) → updateYear d n = (d, [])) := by
  constructor
  · intro h
    rw [updateYear_inRange d n s e hs he h]
    exact ⟨mapGet_mapSet_self .., fun k hk => mapGet_mapSet_ne _ _ _ _ hk,
      rfl, rfl, rfl⟩
  · exact updateYear_outRange d n s e hs he

/-- Witness for C1 at the freshly constructed dashboard: `2015` is
accepted, `2030` is silently ignored. -/
theorem updateYear_range_policy_witness :
    currentYearOf (updateYear (initDashboard true) 2015).1 = some 2015 ∧
    updateYear (initDashboard true) 2030 = (initDashboard true, []) :=
  ⟨((updateYear_range_policy (initDashboard true) 2015 2005 2025
      (by decide) (by decide)).1 (by decide)).1,
   (updateYear_range_policy (initDashboard true) 2030 2005 2025
      (by decide) (by decide)).2 (by decide)⟩

/-! ## C2: the range invariant -/

/-- **C2** counterexample: the claim says the invariant
`startYear ≤ currentYear ≤ endYear` holds after every update/set
operation including `setValue`, but `setValue` performs no range
validation: from the initial state (where the invariant holds),
`setValue("currentYear", 3000)` drives `currentYear` to `3000 > 2025`,
violating the invariant. -/
theorem invariant_violated_by_setValue :
    invariantHolds (initDashboard true) = true ∧
    invariantHolds (setValue (initDashboard true) "currentYear" 3000).1 = false := by
  decide

/-- **C2** (amended): the invariant `startYear ≤ currentYear ≤ endYear`
holds in the initial state and is preserved by every `updateYear` call
(the operation the spec's range validation actually guards); `setValue`
is excluded, since it validates nothing and can violate the invariant. -/
theorem invariant_initial_and_updateYear_preserved :
    (∀ dom, invariantHolds (initDashboard dom) = true) ∧
    (∀ (d : DashboardState) (n : Int), invariantHolds d = true →
       invariantHolds (updateYear d n).1 = true) := by
  constructor
  · intro dom
    rfl
  · intro d n hinv
    rw [invariantHolds] at hinv
    split at hinv
    · next c s e hc hs he =>
      by_cases h : s ≤ n ∧ n ≤ e
      · rw [updateYear_inRange d n s e hs he h, invariantHolds]
        simp only []
        rw [mapGet_mapSet_self, mapGet_mapSet_ne d.state _ "startYear" n (by decide),
          mapGet_mapSet_ne d.state _ "endYear" n (by decide), hs, he]
        simp [h.1, h.2]
      · rw [updateYear_outRange d n s e hs he h, invariantHolds]
        simp only []
        rw [hc, hs, he]
        exact hinv
    · exact absurd hinv (by simp)

/-- Witness for C2 (amended) at a concrete in-range update. -/
theorem invariant_updateYear_witness :
    invariantHolds (updateYear (initDashboard true) 2024).1 = true :=
  invariant_initial_and_updateYear_preserved.2 (initDashboard true) 2024 (by decide)

/-! ## C3: exactly-once listener notification -/

theorem addEventListener_state (d : DashboardState) (event : String) (cb : Listener) :
    (addEventListener d event cb).state = d.state := by
  rw [addEventListener]
  cases mapGet d.listeners event <;> rfl

theorem addEventListener_listeners (d : DashboardState) (event : String) (cb : Listener) :
    (addEventListener d event cb).listeners =
      mapSet d.listeners event ((mapGet d.listeners event).getD [] ++ [cb]) := by
  rw [addEventListener]
  cases hm : mapGet d.listeners event <;> simp

theorem filter_isCallTo_listenerInvoke (event : String) (data : EventData) (i : Nat)
    (cbs : List Listener) :
    ((cbs.flatMap (listenerInvoke event data)).filter (isCallTo i)) =
      (cbs.filter (fun l => l.id == i)).map
        (fun l => Event.listenerCall l.id data) := by
  induction cbs with
  | nil => simp
  | cons cb rest ih =>
    rw [List.flatMap_cons, List.filter_append, ih]
    by_cases hid : cb.id = i <;> cases h : cb.throws <;>
      simp [listenerInvoke, isCallTo, hid, h]

theorem filter_isCallTo_updateAllViews (d : DashboardState) (i : Nat) :
    (updateAllViews d).filter (isCallTo i) = [] := by
  refine List.filter_eq_nil_iff.mpr (fun a ha => ?_)
  rw [updateAllViews, List.mem_flatMap] at ha
  obtain ⟨nv, -, hmem⟩ := ha
  rcases viewFanout_shape _ nv _ hmem with h' | h' | h' <;> subst h' <;>
    simp [isCallTo]

theorem fresh_id_not_in (d : DashboardState) (i : Nat) (event : String)
    (cbs : List Listener) (hfresh : idUsed d i = false)
    (hm : mapGet d.listeners event = some cbs) :
    ∀ l ∈ cbs, (l.id == i) = false := by
  intro l hl
  rw [Bool.eq_false_iff]
  intro hcontra
  have hmem := mapGet_mem _ _ _ hm
  have hany : d.listeners.any (fun p => p.2.any (fun l => l.id == i)) = true :=
    List.any_eq_true.mpr ⟨(event, cbs), hmem, List.any_eq_true.mpr ⟨l, hl, hcontra⟩⟩
  rw [idUsed] at hfresh
  rw [hfresh] at hany
  exact Bool.false_ne_true hany

/-- **C3**: a callback registered for the year-change event
(`'yearChange'` in the code; the spec names this event `"valueChange"`
and it is the event `updateValue`/`updateYear` fires) is invoked exactly
once by a subsequent in-range `updateYear`, with a payload carrying the
previous and the new `currentYear`.  (`cb.id` models JS function
identity, so freshness of `cb.id` says `cb` is a new function object.) -/
theorem yearChange_listener_notified_once (d : DashboardState) (cb : Listener)
    (n s e : Int)
    (hs : mapGet d.state "startYear" = some s)
    (he : mapGet d.state "endYear" = some e)
    (hin : s ≤ n ∧ n ≤ e)
    (hfresh : idUsed d cb.id = false) :
    ((updateYear (addEventListener d "yearChange" cb) n).2.filter (isCallTo cb.id))
      = [.listenerCall cb.id (.yearChange (currentYearOf d) n)] := by
  have hst := addEventListener_state d "yearChange" cb
  have hs1 : mapGet (addEventListener d "yearChange" cb).state "startYear" = some s := by
    rw [hst]; exact hs
  have he1 : mapGet (addEventListener d "yearChange" cb).state "endYear" = some e := by
    rw [hst]; exact he
  rw [updateYear_inRange _ n s e hs1 he1 hin]
  simp only [List.filter_append]
  have hcy : currentYearOf (addEventListener d "yearChange" cb) = currentYearOf d := by
    rw [currentYearOf, currentYearOf, hst]
  rw [hcy]
  have h1 : ((if (addEventListener d "yearChange" cb).yearDisplayPresent then
      [Event.domUpdate n] else []) |>.filter (isCallTo cb.id)) = [] := by
    cases (addEventListener d "yearChange" cb).yearDisplayPresent <;> simp [isCallTo]
  have h2 := filter_isCallTo_updateAllViews
    { addEventListener d "yearChange" cb with
      state := mapSet (addEventListener d "yearChange" cb).state "currentYear" n } cb.id
  have h4 : ([Event.logYearUpdated (currentYearOf d) n].filter (isCallTo cb.id)) = [] := by
    simp [isCallTo]
  rw [h1, h2, h4]
  have hlis : ({ addEventListener d "yearChange" cb with
      state := mapSet (addEventListener d "yearChange" cb).state "currentYear" n } :
        DashboardState).listeners =
      mapSet d.listeners "yearChange" ((mapGet d.listeners "yearChange").getD [] ++ [cb]) :=
    addEventListener_listeners d "yearChange" cb
  rw [triggerListeners, hlis, mapGet_mapSet_self, filter_isCallTo_listenerInvoke,
    List.filter_append]
  have hold : (((mapGet d.listeners "yearChange").getD []).filter
      (fun l => l.id == cb.id)) = [] := by
    refine List.filter_eq_nil_iff.mpr (fun l hl => ?_)
    cases hm : mapGet d.listeners "yearChange" with
    | none => rw [hm] at hl; simp at hl
    | some cbs =>
      rw [hm] at hl
      simp only [Option.getD_some] at hl
      simp [fresh_id_not_in d cb.id "yearChange" cbs hfresh hm l hl]
  rw [hold]
  simp

/-- Witness for C3: on the initial dashboard, a fresh callback on the
year-change event fires exactly once for `updateYear 2012`. -/
theorem yearChange_listener_notified_once_witness :
    ((updateYear (addEventListener (initDashboard true) "yearChange" ⟨7, false⟩) 2012).2.filter
        (isCallTo 7))
      = [.listenerCall 7 (.yearChange (some 2010) 2012)] :=
  yearChange_listener_notified_once (initDashboard true) ⟨7, false⟩ 2012 2005 2025
    (by decide) (by decide) (by decide) (by decide)

/-! ## C4: rejection of invalid view handles -/

/-- **C4** counterexample: the claim says a handle lacking either the
signal capability or the run capability is rejected (registry unchanged,
error reported, nothing raised), but `registerView` only checks
`typeof view.signal === 'function'`.  A handle with a `signal` function
but no `run` passes the check: the registry DOES change and the failing
`view.run()` call raises a `TypeError` to the caller. -/
theorem registerView_missing_run_not_rejected :
    (registerView (initDashboard true) "v1"
        (some ⟨true, false, false, false⟩)).1.views ≠ (initDashboard true).views ∧
    (registerView (initDashboard true) "v1"
        (some ⟨true, false, false, false⟩)).2.2 ≠ none := by
  decide

/-- **C4** (amended): for every name and every candidate handle lacking
the signal-setting capability (a null handle, or one whose `signal` is
not a function), `registerView` leaves the registry (indeed the whole
mediator) unchanged, reports an `Invalid view` error, and does not
raise; the run capability is never checked at registration. -/
theorem registerView_invalid_signal_rejected (d : DashboardState) (name : String)
    (view : Option ViewHandle)
    (h : ∀ v, view = some v → v.hasSignal = false) :
    registerView d name view = (d, [.errInvalidView name], none) := by
  cases view with
  | none => rfl
  | some v => simp [registerView, h v rfl]

/-- Witness for C4 (amended): a handle whose `signal` member is not a
function is rejected without touching the mediator. -/
theorem registerView_invalid_signal_rejected_witness :
    registerView (initDashboard true) "v1" (some ⟨false, false, true, false⟩)
      = (initDashboard true, [.errInvalidView "v1"], none) :=
  registerView_invalid_signal_rejected (initDashboard true) "v1"
    (some ⟨false, false, true, false⟩) (by intro v hv; cases hv; rfl)

/-! ## C5: successful registration pushes the current value -/

/-- **C5**: registering a valid view (signal and run both present and
not raising) stores it under the name and immediately pushes the shared
value: the trace is exactly a `signal('globalYear', currentYear)` call
followed by a `run()` call (and the success log), with no error. -/
theorem registerView_valid_initial_push (d : DashboardState) (name : String)
    (v : ViewHandle) (h1 : v.hasSignal = true) (h2 : v.signalThrows = false)
    (h3 : v.runIsFun = true) (h4 : v.runThrows = false) :
    mapGet (registerView d name (some v)).1.views name = some v ∧
    (registerView d name (some v)).2.1 =
      [.signalCall name "globalYear" (currentYearOf d), .runCall name,
       .logViewRegistered name] ∧
    (registerView d name (some v)).2.2 = none := by
  simp only [registerView, h1, h2, h3, h4]
  exact ⟨mapGet_mapSet_self .., rfl, rfl⟩

/-- Witness for C5: a healthy view registered on the initial dashboard
receives `("globalYear", 2010)` and a run call. -/
theorem registerView_valid_initial_push_witness :
    mapGet (registerView (initDashboard true) "v1"
        (some ⟨true, false, true, false⟩)).1.views "v1"
      = some ⟨true, false, true, false⟩ ∧
    (registerView (initDashboard true) "v1"
        (some ⟨true, false, true, false⟩)).2.1 =
      [.signalCall "v1" "globalYear" (some 2010), .runCall "v1",
       .logViewRegistered "v1"] ∧
    (registerView (initDashboard true) "v1"
        (some ⟨true, false, true, false⟩)).2.2 = none :=
  registerView_valid_initial_push (initDashboard true) "v1"
    ⟨true, false, true, false⟩ rfl rfl rfl rfl

/-! ## C10: registration is not atomic w.r.t. the initial push -/

/-- **C10**: whenever the candidate's `signal` member is a function, the
view is inserted into the registry BEFORE the initial push, so even when
the push raises (signal raising, run missing — a `TypeError` — or run
raising) the exception propagates to the caller while the view remains
registered under the name. -/
theorem registerView_nonatomic (d : DashboardState) (name : String) (v : ViewHandle)
    (h : v.hasSignal = true) :
    mapGet (registerView d name (some v)).1.views name = some v ∧
    ((v.signalThrows = true ∨ v.runIsFun = false ∨ v.runThrows = true) →
       (registerView d name (some v)).2.2 ≠ none) := by
  cases hst : v.signalThrows <;> cases hri : v.runIsFun <;> cases hrt : v.runThrows <;>
    simp [registerView, h, hst, hri, hrt, mapGet_mapSet_self]

/-- Witness for C10: a view whose `run` raises during the initial push
is nevertheless registered, and the exception escapes. -/
theorem registerView_nonatomic_witness :
    mapGet (registerView (initDashboard true) "v1"
        (some ⟨true, false, true, true⟩)).1.views "v1"
      = some ⟨true, false, true, true⟩ ∧
    (registerView (initDashboard true) "v1"
        (some ⟨true, false, true, true⟩)).2.2 ≠ none :=
  ⟨(registerView_nonatomic (initDashboard true) "v1" ⟨true, false, true, true⟩ rfl).1,
   (registerView_nonatomic (initDashboard true) "v1" ⟨true, false, true, true⟩ rfl).2
     (Or.inr (Or.inr rfl))⟩

/-! ## C6: per-view isolation of the fan-out -/

/-- **C6**: in a single `updateAllViews` fan-out, every registered
healthy view (valid signal, neither call raising) receives its
`signal('globalYear', currentYear)` update and its run call, regardless
of other views raising; exceptions are caught per view (the operation
cannot throw, by its type) and an `Error updating view` diagnostic names
only views that actually failed. -/
theorem updateAllViews_fanout_isolation (d : DashboardState) :
    (∀ name v, (name, v) ∈ d.views → v.hasSignal = true → v.signalThrows = false →
       v.runIsFun = true → v.runThrows = false →
       Event.signalCall name "globalYear" (currentYearOf d) ∈ updateAllViews d ∧
       Event.runCall name ∈ updateAllViews d) ∧
    (∀ name, Event.errViewUpdate name ∈ updateAllViews d →
       ∃ v, (name, v) ∈ d.views ∧ v.hasSignal = true ∧
         (v.signalThrows = true ∨ v.runIsFun = false ∨ v.runThrows = true)) := by
  constructor
  · intro name v hmem h1 h2 h3 h4
    constructor <;>
    · rw [updateAllViews, List.mem_flatMap]
      exact ⟨(name, v), hmem, by rw [viewFanout_healthy _ _ _ h1 h2 h3 h4]; simp⟩
  · intro name h
    rw [updateAllViews, List.mem_flatMap] at h
    obtain ⟨⟨n', v⟩, hmem, hin⟩ := h
    obtain ⟨rfl, hsig, hbad⟩ := viewFanout_err _ _ _ _ hin
    exact ⟨v, hmem, hsig, hbad⟩

/-- Witness for C6 on `mixedViewsDashboard` (view `"a"` raises on run,
view `"b"` is healthy): `"b"` still receives its update, and the only
reported failure is for a genuinely faulty view. -/
theorem updateAllViews_fanout_isolation_witness :
    (Event.signalCall "b" "globalYear" (some 2010) ∈ updateAllViews mixedViewsDashboard ∧
     Event.runCall "b" ∈ updateAllViews mixedViewsDashboard) ∧
    (∃ v, ("a", v) ∈ mixedViewsDashboard.views ∧ v.hasSignal = true ∧
       (v.signalThrows = true ∨ v.runIsFun = false ∨ v.runThrows = true)) :=
  ⟨(updateAllViews_fanout_isolation mixedViewsDashboard).1 "b"
      ⟨true, false, true, false⟩ (by decide) rfl rfl rfl rfl,
   (updateAllViews_fanout_isolation mixedViewsDashboard).2 "a" (by decide)⟩

/-! ## C7: `prepareSpec` injects the shared parameter -/

theorem setFirstGlobalYear_filter (cy : Option Int) (ps : List VegaParam) :
    (setFirstGlobalYear cy ps).filter (fun p => p.name != "globalYear") =
      ps.filter (fun p => p.name != "globalYear") := by
  induction ps with
  | nil => rfl
  | cons p ps ih =>
    by_cases h : p.name = "globalYear"
    · simp [setFirstGlobalYear, h]
    · simp [setFirstGlobalYear, h, ih]

theorem setFirstGlobalYear_find (cy : Option Int) (ps : List VegaParam)
    (h : ps.any (fun p => p.name == "globalYear") = true) :
    (setFirstGlobalYear cy ps).find? (fun p => p.name == "globalYear") =
      some ⟨"globalYear", cy⟩ := by
  induction ps with
  | nil => simp at h
  | cons p ps ih =>
    by_cases hp : p.name = "globalYear"
    · simp [setFirstGlobalYear, hp, List.find?]
    · have h' : ps.any (fun p => p.name == "globalYear") = true := by
        rcases List.any_eq_true.mp h with ⟨x, hx, hpx⟩
        rcases List.mem_cons.mp hx with rfl | hx'
        · exact absurd (by simpa using hpx) hp
        · exact List.any_eq_true.mpr ⟨x, hx', hpx⟩
      simp [setFirstGlobalYear, hp, List.find?, ih h']

theorem setFirstGlobalYear_length (cy : Option Int) (ps : List VegaParam) :
    (setFirstGlobalYear cy ps).length = ps.length := by
  induction ps with
  | nil => rfl
  | cons p ps ih =>
    by_cases h : p.name = "globalYear" <;> simp [setFirstGlobalYear, h, ih]

/-- **C7**: `prepareSpec` returns a configuration in which (i) the
opaque remainder of the document is untouched, (ii) the entries not
named `globalYear` are exactly those of the input, in order, (iii) the
first `globalYear` entry carries the shared `currentYear`, (iv) when no
`globalYear` entry existed, one is inserted at the front of the
(possibly freshly created) list, and (v) when one existed it is updated
in place (the list length is unchanged).  The input is never mutated:
the JS code operates on a JSON round-trip deep copy, modelled here by a
pure function on immutable values. -/
theorem prepareSpec_injects_globalYear (d : DashboardState) (spec : VegaSpec)
    (cy : Int) (hcy : currentYearOf d = some cy) :
    (prepareSpec d spec).rest = spec.rest ∧
    ((prepareSpec d spec).params.getD []).filter (fun p => p.name != "globalYear")
      = (spec.params.getD []).filter (fun p => p.name != "globalYear") ∧
    ((prepareSpec d spec).params.getD []).find? (fun p => p.name == "globalYear")
      = some ⟨"globalYear", some cy⟩ ∧
    ((spec.params.getD []).any (fun p => p.name == "globalYear") = false →
       (prepareSpec d spec).params =
         some (⟨"globalYear", some cy⟩ :: spec.params.getD [])) ∧
    ((spec.params.getD []).any (fun p => p.name == "globalYear") = true →
       ((prepareSpec d spec).params.getD []).length
         = (spec.params.getD []).length) := by
  by_cases hany : (spec.params.getD []).any (fun p => p.name == "globalYear") = true
  · have hps : prepareSpec d spec =
        { spec with params := some (setFirstGlobalYear (some cy) (spec.params.getD [])) } := by
      simp only [prepareSpec, hcy]
      rw [if_pos hany]
    rw [hps]
    refine ⟨rfl, setFirstGlobalYear_filter _ _, setFirstGlobalYear_find _ _ hany,
      ?_, fun _ => setFirstGlobalYear_length _ _⟩
    intro hno
    rw [hany] at hno
    exact absurd hno (by simp)
  · have hany' : (spec.params.getD []).any (fun p => p.name == "globalYear") = false :=
      Bool.eq_false_iff.mpr hany
    have hps : prepareSpec d spec =
        { spec with params := some (⟨"globalYear", some cy⟩ :: spec.params.getD []) } := by
      simp only [prepareSpec, hcy]
      rw [if_neg hany]
    rw [hps]
    refine ⟨rfl, ?_, ?_, fun _ => rfl, ?_⟩
    · simp
    · simp [List.find?]
    · intro htrue
      rw [htrue] at hany'
      exact absurd hany' (by simp)

/-- Witness for C7 at the spec's own example: one `"other"` entry,
current year `2010`. -/
theorem prepareSpec_injects_globalYear_witness :
    (prepareSpec (initDashboard true) ⟨some [⟨"other", some 1⟩], 5⟩).rest = 5 ∧
    ((prepareSpec (initDashboard true) ⟨some [⟨"other", some 1⟩], 5⟩).params.getD
        []).filter (fun p => p.name != "globalYear") = [⟨"other", some 1⟩] ∧
    ((prepareSpec (initDashboard true) ⟨some [⟨"other", some 1⟩], 5⟩).params.getD
        []).find? (fun p => p.name == "globalYear") = some ⟨"globalYear", some 2010⟩ :=
  have h := prepareSpec_injects_globalYear (initDashboard true)
    ⟨some [⟨"other", some 1⟩], 5⟩ 2010 (by decide)
  ⟨h.1, h.2.1, h.2.2.1⟩

/-! ## C8: `setValue` is an unconditional state-bag write -/

/-- **C8**: for every key and value, `setValue` writes the value under
the key with no range validation (every other key unchanged, registries
unchanged); its trace is the view fan-out exactly when the key is
`"currentYear"`, followed by the always-fired `'stateChange'` listener
notification carrying `{key, oldValue, newValue}`; and it never updates
the bound DOM display.  By construction it cannot throw. -/
theorem setValue_unconditional_write (d : DashboardState) (key : String)
    (value : Int) :
    mapGet (setValue d key value).1.state key = some value ∧
    (∀ k, k ≠ key → mapGet (setValue d key value).1.state k = mapGet d.state k) ∧
    (setValue d key value).1.views = d.views ∧
    (setValue d key value).1.listeners = d.listeners ∧
    (setValue d key value).2 =
      (if key == "currentYear" then updateAllViews (setValue d key value).1 else [])
        ++ triggerListeners (setValue d key value).1 "stateChange"
            (.stateChange key (mapGet d.state key) value) ∧
    (∀ y, Event.domUpdate y ∉ (setValue d key value).2) := by
  refine ⟨mapGet_mapSet_self .., fun k hk => mapGet_mapSet_ne _ _ _ _ hk,
    rfl, rfl, rfl, ?_⟩
  intro y hy
  rw [setValue] at hy
  simp only at hy
  rcases List.mem_append.mp hy with h | h
  · by_cases hkey : (key == "currentYear") = true
    · rw [if_pos hkey] at h
      exact updateAllViews_not_domUpdate _ y h
    · rw [if_neg hkey] at h
      simp at h
  · exact triggerListeners_not_domUpdate _ _ _ y h

/-- Witness for C8: writing `3000` to `"currentYear"` and `7` to a fresh
key `"foo"` both succeed unconditionally. -/
theorem setValue_unconditional_write_witness :
    mapGet (setValue (initDashboard true) "currentYear" 3000).1.state "currentYear"
      = some 3000 ∧
    mapGet (setValue (initDashboard true) "foo" 7).1.state "foo" = some 7 ∧
    mapGet (setValue (initDashboard true) "foo" 7).1.state "currentYear"
      = mapGet (initDashboard true).state "currentYear" :=
  ⟨(setValue_unconditional_write (initDashboard true) "currentYear" 3000).1,
   (setValue_unconditional_write (initDashboard true) "foo" 7).1,
   (setValue_unconditional_write (initDashboard true) "foo" 7).2.1 "currentYear"
     (by decide)⟩

/-! ## C9: failure propagation of `loadVisualization` -/

/-- **C9** counterexample: the claim's second clause says
`loadVisualization` is the ONLY mediator operation whose failures
propagate to callers, but `registerView` called directly with a handle
whose `signal` raises lets that exception escape to its caller (see
C10); here is a concrete such call. -/
theorem registerView_failure_propagates :
    (registerView (initDashboard true) "v1"
        (some ⟨true, true, true, false⟩)).2.2 = some .signalRaised := by
  decide

/-- **C9** (amended): any failure at either suspension point of
`loadVisualization` (fetching/decoding the configuration, or
instantiating the chart) is reported with a diagnostic identifying
`viewName` and re-raised to the caller, the mediator state untouched;
among the mediator operations, only `loadVisualization` and
`registerView` can propagate failures to callers (the claim's
uniqueness clause fails for `registerView`). -/
theorem loadVisualization_failures_reraised (d : DashboardState)
    (emb : VegaSpec → Except JsError (Option ViewHandle)) (name : String)
    (e : JsError) :
    (loadVisualization d (.error e) emb name = (d, [.errVizLoad name], some e)) ∧
    (∀ spec, emb (prepareSpec d spec) = .error e →
       loadVisualization d (.ok spec) emb name = (d, [.errVizLoad name], some e)) := by
  constructor
  · rfl
  · intro spec hemb
    simp [loadVisualization, hemb]

/-- Witness for C9 (amended): a failing fetch and a failing embed are
each reported as `errVizLoad "viz"` and re-raised. -/
theorem loadVisualization_failures_reraised_witness :
    loadVisualization (initDashboard true) (.error .fetchFailed)
        (fun _ => .error .embedFailed) "viz"
      = (initDashboard true, [.errVizLoad "viz"], some .fetchFailed) ∧
    loadVisualization (initDashboard true) (.ok ⟨none, 0⟩)
        (fun _ => .error .embedFailed) "viz"
      = (initDashboard true, [.errVizLoad "viz"], some .embedFailed) :=
  ⟨(loadVisualization_failures_reraised (initDashboard true)
      (fun _ => .error .embedFailed) "viz" .fetchFailed).1,
   (loadVisualization_failures_reraised (initDashboard true)
      (fun _ => .error .embedFailed) "viz" .embedFailed).2 ⟨none, 0⟩ rfl⟩
